import Mathlib

/-!
Shallow embedding of the docweaver documentation pipeline
(src/extension.ts, src/api.ts, src/projectStructure.ts, src/utils.ts).

JavaScript values that may be `undefined` are modelled as `Option`;
the JS `||` fallback on strings/booleans is modelled by explicit
falsiness helpers (`undefined`, `""` and `false` are falsy).
The nested JS object used as the project tree is modelled as an
ordered association list of key/subtree pairs (`PTree`/`PChildren`,
a mutual inductive so that the traversals are structural).
Async control flow carries no concurrency in the source (every await
is sequential), so runs are modelled as pure functions from their
inputs (settings, per-attempt network outcomes, cancellation signal)
to their observable results.  The network is modelled by a function
from the attempt index to that attempt's outcome: a failure, or a
reply whose relevant text field may be missing (`Option String`).
-/

namespace DocWeaver

/-- JS `x || d` for an optional boolean setting (`undefined` and `false` are falsy). -/
def jsOrBool (x : Option Bool) (d : Bool) : Bool :=
  match x with
  | some b => if b then b else d
  | none => d

/-- JS `x || d` for an optional string (`undefined` and `""` are falsy). -/
def jsOrStr (x : Option String) (d : String) : String :=
  match x with
  | some s => if s = "" then d else s
  | none => d

/-- JS falsiness test of an optional string (`!openaiKey`). -/
def strFalsy (x : Option String) : Bool :=
  match x with
  | some s => s = ""
  | none => true

/-- extension.ts line 143: `const saveToFile: boolean = config.get("saveToFile") || true;`. -/
def saveToFileSetting (configured : Option Bool) : Bool :=
  jsOrBool configured true

/-- Outcome of one network attempt, indexed by the attempt counter. -/
abbrev Attempt := Nat → Except String (Option String)

/-- Trace of one `fetchWithRetry` call: final result, the backoff delays
that were awaited (in ms, in order), and how many POST attempts were made. -/
structure RetryTrace where
  result : Except String (Option String)
  delays : List Nat
  attempts : Nat

/-- extension.ts lines 671-695 / api.ts lines 134-157, the `fetchWithRetry`
loop body from a given value of `attempt`: try the POST; on success return;
on failure increment `attempt`, rethrow once `attempt > maxRetries`,
otherwise await `2^attempt * 1000` ms and loop. -/
def fetchWithRetryGo (outcome : Attempt) (maxRetries : Nat) (attempt : Nat) : RetryTrace :=
  match outcome attempt with
  | .ok a => ⟨.ok a, [], 1⟩
  | .error e =>
    if h : attempt + 1 > maxRetries then ⟨.error e, [], 1⟩
    else
      let rest := fetchWithRetryGo outcome maxRetries (attempt + 1)
      ⟨rest.result, (2 ^ (attempt + 1) * 1000) :: rest.delays, rest.attempts + 1⟩
termination_by maxRetries + 1 - attempt
decreasing_by omega

/-- `fetchWithRetry(url, data, config, maxRetries = 2)`: the loop starts at `attempt = 0`. -/
def fetchWithRetry (outcome : Attempt) (maxRetries : Nat := 2) : RetryTrace :=
  fetchWithRetryGo outcome maxRetries 0

/-- The filtering loop body of `documentProject` (extension.ts lines 168-190):
a path matching the merged ignore set is skipped; with a positive
`maxFileSizeBytes` the file is statted and skipped when oversized or when
the stat fails (`stat = none`); otherwise the file is kept. -/
def includeFile (ignores : String → Bool) (maxFileSize : Nat)
    (stat : Option Nat) (relative : String) : Bool :=
  if ignores relative then false
  else if 0 < maxFileSize then
    match stat with
    | some size => if maxFileSize < size then false else true
    | none => false
  else true

/-- `"<think>"` as a character list (7 characters). -/
def openTag : List Char := "<think>".data

/-- `"</think>"` as a character list (8 characters). -/
def closeTag : List Char := "</think>".data

/-- Index of the leftmost occurrence of `pat` in `s`, if any. -/
def findSub? (pat : List Char) : List Char → Option Nat
  | [] => if pat.isPrefixOf ([] : List Char) then some 0 else none
  | s@(_ :: rest) =>
    if pat.isPrefixOf s then some 0 else (findSub? pat rest).map (· + 1)

/-- utils.ts lines 84-86 / extension.ts lines 700-702:
`str.replace(/<think>[\s\S]*?<\/think>/g, "")`.  The global replace finds,
left to right, each leftmost `<think>` that is followed by a `</think>`,
deletes through the nearest such `</think>`, and resumes scanning after the
deleted span.  The extra `Nat` is fuel that only makes the recursion
structural (hence kernel-evaluable); every deleted span is at least 15
characters long, so fuel equal to the string length never runs out. -/
def removeThinkGo : Nat → List Char → List Char
  | 0, s => s
  | fuel + 1, s =>
    match findSub? openTag s with
    | none => s
    | some i =>
      match findSub? closeTag (s.drop (i + 7)) with
      | none => s
      | some j => s.take i ++ removeThinkGo fuel ((s.drop (i + 7)).drop (j + 8))

/-- `removeThinkTags(str)`. -/
def removeThinkTags (s : String) : String := ⟨removeThinkGo s.data.length s.data⟩

/-- Whether the regex `/<think>[\s\S]*?<\/think>/` matches somewhere in `s`:
there is a leftmost `<think>` and some `</think>` after it. -/
def hasThinkSpan (s : String) : Bool :=
  match findSub? openTag s.data with
  | none => false
  | some i => (findSub? closeTag (s.data.drop (i + 7))).isSome

mutual
/-- The nested JS object built by `buildProjectStructure`
(projectStructure.ts lines 4-21 / extension.ts lines 707-721): an ordered
mapping from path segment to subtree.  A node whose children are `.nil`
is a file leaf. -/
inductive PTree where
  | node (children : PChildren)

/-- The ordered key/subtree entries of one tree node. -/
inductive PChildren where
  | nil
  | cons (key : String) (sub : PTree) (rest : PChildren)
end

/-- The children of a node. -/
def PTree.children : PTree → PChildren
  | .node cs => cs

/-- `Object.keys(obj).length === 0` on a child map. -/
def PChildren.isNil : PChildren → Bool
  | .nil => true
  | .cons _ _ _ => false

/-- Induction along the entry list (spine) of a child map. -/
def PChildren.spineInduction {motive : PChildren → Prop} (h0 : motive .nil)
    (h1 : ∀ k sub rest, motive rest → motive (.cons k sub rest)) : ∀ cs, motive cs
  | .nil => h0
  | .cons k sub rest => h1 k sub rest (PChildren.spineInduction h0 h1 rest)

/-- JS property read `current[part]` on the ordered child map. -/
def lookupChild : String → PChildren → Option PTree
  | _, .nil => none
  | k, .cons k' sub rest => if k' = k then some sub else lookupChild k rest

/-- JS property write `current[part] = v`: replaces the entry in place if the
key exists, else appends it (JS objects append new keys last). -/
def setChild (k : String) (v : PTree) : PChildren → PChildren
  | .nil => .cons k v .nil
  | .cons k' sub rest =>
    if k' = k then .cons k' v rest else .cons k' sub (setChild k v rest)

/-- The inner loop of `buildProjectStructure` for one file: walk the path
segments from the root, creating `{}` for each missing segment
(`if (!current[part]) current[part] = {}; current = current[part];`). -/
def insertPath : List String → PTree → PTree
  | [], t => t
  | seg :: rest, .node cs =>
    .node (setChild seg (insertPath rest ((lookupChild seg cs).getD (.node .nil))) cs)

/-- JS `relative.split(sep)` for a one-character separator. -/
def splitSep (sep : Char) : List Char → List (List Char)
  | [] => [[]]
  | c :: rest =>
    if c = sep then [] :: splitSep sep rest
    else
      match splitSep sep rest with
      | [] => [[c]]
      | w :: ws => (c :: w) :: ws

/-- `relative.split(path.sep)` with the POSIX separator `/`. -/
def splitPath (s : String) : List String :=
  (splitSep '/' s.data).map (fun w => ⟨w⟩)

/-- `buildProjectStructure(files, rootPath)`
(projectStructure.ts lines 4-21 / extension.ts lines 707-721), over the
already-relative paths of the discovered files. -/
def buildProjectStructure (files : List String) : PTree :=
  files.foldl (fun t f => insertPath (splitPath f) t) (.node .nil)

/-- Follow a sequence of path segments down the tree. -/
def subtree? : PTree → List String → Option PTree
  | t, [] => some t
  | .node cs, k :: ks =>
    match lookupChild k cs with
    | some sub => subtree? sub ks
    | none => none

/-- Whether the tree has a node at the given root-relative segment path. -/
def hasNode (t : PTree) (q : List String) : Bool := (subtree? t q).isSome

/-- Whether the node at `q` exists and is a file leaf (zero children). -/
def isLeafAt (t : PTree) (q : List String) : Bool :=
  match subtree? t q with
  | some sub => sub.children.isNil
  | none => false

/-- `docweaver.apiProvider`: the recognized values of the provider switch,
plus the fall-through default branch. -/
inductive Provider where
  | ollama
  | openai
  | other

/-- extension.ts lines 44-51: `DEFAULT_MODULE_PROMPT` (a template literal
that starts and ends with a newline). -/
def DEFAULT_MODULE_PROMPT : String :=
  "\nAnalyze the following file and submodule summaries for the module.\nProvide a concise summary that covers:\n- The module\x27s overall functionality.\n- Key responsibilities and purpose.\n- Interactions with other modules or external dependencies.\nInclude any critical details.\n"

/-- extension.ts lines 25-32: `DEFAULT_FILE_PROMPT`. -/
def DEFAULT_FILE_PROMPT : String :=
  "\nAnalyze the following code snippet and provide a concise technical summary. Include:\n\n- **Imports:** List each import with its purpose.\n- **Functions/Classes:** For each, include the name, parameters (with types if available), return value, and a brief description.\n- **Overall Functionality:** Summarize how the code operates.\n- **Additional Notes:** Highlight key details, assumptions, or edge cases.\n"

/-- JS `Array.prototype.join(sep)`. -/
def joinSep (sep : String) : List String → String
  | [] => ""
  | [x] => x
  | x :: xs => x ++ sep ++ joinSep sep (xs)

/-- Association-list model of the `Map<string, string>` of file summaries
(`fileSummariesMap.get(childPath)`). -/
def lookupSummary (k : String) : List (String × String) → Option String
  | [] => none
  | (k', v) :: rest => if k' = k then some v else lookupSummary k rest

/-- api.ts lines 70-94 / extension.ts lines 607-629, `summarizeModuleWithOllama`:
POST via `fetchWithRetry` (2 retries); on success return the reply's
`response` field (or the default text when that field is falsy) stripped of
think tags; any error thrown after retries is caught and replaced by the
fixed placeholder `"Module summary not available (Ollama error)."`. -/
def summarizeModuleWithOllama (outcome : Attempt) : String :=
  match (fetchWithRetry outcome 2).result with
  | .ok r => removeThinkTags (jsOrStr r "Module summary not available.")
  | .error _ => "Module summary not available (Ollama error)."

/-- api.ts lines 96-132 / extension.ts lines 631-666, `summarizeModuleWithOpenAI`,
paired with the number of network attempts made: with a missing or empty
key it returns the configuration placeholder before any network call;
otherwise it behaves like the Ollama variant with OpenAI placeholders. -/
def summarizeModuleWithOpenAI (openaiKey : Option String) (outcome : Attempt) :
    String × Nat :=
  if strFalsy openaiKey then ("Module summary not available (no OpenAI key).", 0)
  else
    let t := fetchWithRetry outcome 2
    match t.result with
    | .ok r => (removeThinkTags (jsOrStr r "Module summary not available."), t.attempts)
    | .error _ => ("Module summary not available (OpenAI error).", t.attempts)

/-- api.ts lines 5-30 / extension.ts lines 354-376, `summarizeFileWithOllama`. -/
def summarizeFileWithOllama (outcome : Attempt) : String :=
  match (fetchWithRetry outcome 2).result with
  | .ok r => removeThinkTags (jsOrStr r "Summary not available.")
  | .error _ => "Summary not available (Ollama error)."

/-- api.ts lines 32-68 / extension.ts lines 381-415, `summarizeFileWithOpenAI`,
paired with the number of network attempts made. -/
def summarizeFileWithOpenAI (openaiKey : Option String) (outcome : Attempt) :
    String × Nat :=
  if strFalsy openaiKey then ("Summary not available (no OpenAI key).", 0)
  else
    let t := fetchWithRetry outcome 2
    match t.result with
    | .ok r => (removeThinkTags (jsOrStr r "Summary not available."), t.attempts)
    | .error _ => ("Summary not available (OpenAI error).", t.attempts)

/-- extension.ts lines 342-349, `buildFilePrompt`. -/
def buildFilePrompt (template : String) (codeSnippet : String) : String :=
  joinSep "\n"
    [template.trim, "\nHere is the code snippet:\n```", codeSnippet, "```"]

/-- extension.ts lines 319-323: the effective file prompt template
(`customFilePrompt && customFilePrompt.trim().length > 0 ? customFilePrompt
: DEFAULT_FILE_PROMPT`). -/
def effectiveFileTemplate (customFilePrompt : Option String) : String :=
  match customFilePrompt with
  | some t => if 0 < t.trim.length then t else DEFAULT_FILE_PROMPT
  | none => DEFAULT_FILE_PROMPT

/-- extension.ts lines 311-337, `summarizeFile`: dispatch on the provider;
the network outcomes are indexed by the POSTed prompt.  The fall-through
branch returns the first five lines of the content
(`content.split("\n").slice(0, 5).join("\n")`). -/
def summarizeFile (provider : Provider) (openaiKey : Option String)
    (customFilePrompt : Option String) (network : String → Attempt)
    (content : String) : String :=
  let finalPrompt := buildFilePrompt (effectiveFileTemplate customFilePrompt) content
  match provider with
  | .ollama => summarizeFileWithOllama (network finalPrompt)
  | .openai => (summarizeFileWithOpenAI openaiKey (network finalPrompt)).1
  | .other => joinSep "\n" ((content.splitOn "\n").take 5)

mutual
/-- extension.ts lines 555-602, `summarizeDirectoryRecursively`: the
collected child fragments are joined with `"\n\n"`, prefixed by the module
prompt, and fed to the provider's backend (`bo`/`bp` are the module
backends as functions of the POSTed prompt); the fall-through provider
branch returns the joined fragments themselves.  `fsMap` is the
file-summaries map; the first `String` argument is `currentPath`. -/
def summarizeDirectoryRecursively (provider : Provider) (bo bp : String → String)
    (fsMap : List (String × String)) : String → PTree → String
  | currentPath, .node cs =>
    let combinedSummaries := joinSep "\n\n" (collectChildSummaries provider bo bp fsMap currentPath cs)
    let modulePrompt := DEFAULT_MODULE_PROMPT ++ "\n\n" ++ combinedSummaries
    match provider with
    | .ollama => bo modulePrompt
    | .openai => bp modulePrompt
    | .other => combinedSummaries

/-- The per-child loop of extension.ts lines 563-583: a child with zero
children is a file leaf — `if (fileSummary)` (line 569) is a JS truthiness
test, so only a present AND non-empty summary contributes
`"File: <path>\nSummary: <summary>"`; an absent or empty one contributes
nothing.  A child with children is summarized recursively and contributes
`"Module: <path>\nSummary: <submoduleSummary>"`. -/
def collectChildSummaries (provider : Provider) (bo bp : String → String)
    (fsMap : List (String × String)) : String → PChildren → List String
  | _, .nil => []
  | currentPath, .cons key sub rest =>
    let childPath := if currentPath = "" then key else currentPath ++ "/" ++ key
    (if sub.children.isNil then
      match lookupSummary childPath fsMap with
      | some fileSummary =>
        if fileSummary = "" then []
        else ["File: " ++ childPath ++ "\nSummary: " ++ fileSummary]
      | none => []
    else
      ["Module: " ++ childPath ++ "\nSummary: " ++
        summarizeDirectoryRecursively provider bo bp fsMap childPath sub]) ++
    collectChildSummaries provider bo bp fsMap currentPath rest
end

/-- The module prompt that `summarizeDirectoryRecursively` feeds to the
backend for the node at `currentPath` with children `cs` (the two `let`s
of extension.ts lines 586-589). -/
def modulePromptFor (provider : Provider) (bo bp : String → String)
    (fsMap : List (String × String)) (currentPath : String) (cs : PChildren) : String :=
  DEFAULT_MODULE_PROMPT ++ "\n\n" ++
    joinSep "\n\n" (collectChildSummaries provider bo bp fsMap currentPath cs)

/-- `needle` occurs contiguously inside `hay`. -/
def strContains (needle hay : String) : Prop := ∃ p q, hay = p ++ needle ++ q

/-- Children of `dir` in the spec's aggregation example
`root -> {a.txt, dir -> {b.txt}}`. -/
def exampleDirChildren : PChildren := .cons "b.txt" (.node .nil) .nil

/-- Root children of the spec's aggregation example. -/
def exampleRootChildren : PChildren :=
  .cons "a.txt" (.node .nil) (.cons "dir" (.node exampleDirChildren) .nil)

/-- File summaries of the spec's aggregation example. -/
def exampleSummaries : List (String × String) := [("a.txt", "A"), ("dir/b.txt", "B")]

/-- The file-summarization loop of `documentProject` (extension.ts lines
194-218): files are processed in order; at the top of each iteration the
cancellation token is checked and the loop breaks if it is set; otherwise
the file is summarized and pushed.  `cancelled i` is
`token.isCancellationRequested` at the iteration that would process
file index `i`. -/
def collectFileSummaries (summarize : String → String) (cancelled : Nat → Bool) :
    Nat → List String → List (String × String)
  | _, [] => []
  | i, f :: rest =>
    if cancelled i then []
    else (f, summarize f) :: collectFileSummaries summarize cancelled (i + 1) rest

/-- The observable result of one `documentProject` run
(extension.ts lines 130-288): the per-file summaries that were collected,
the project summary produced by the hierarchical aggregation, and whether
the save-to-disk branch was taken. -/
structure RunOutcome where
  fileSummaries : List (String × String)
  projectSummary : String
  saveAttempted : Bool

/-- extension.ts lines 130-288, `documentProject`, after file discovery and
filtering: summarize the filtered files under the cancellation token, build
the project structure from ALL filtered files, build the summary map from
whatever summaries were collected, and unconditionally run
`summarizeDirectoryRecursively` on the root; the save branch is guarded by
`config.get("saveToFile") || true`. -/
def documentProject (provider : Provider) (bo bp : String → String)
    (summarize : String → String) (saveSetting : Option Bool)
    (cancelled : Nat → Bool) (filteredFiles : List String) : RunOutcome :=
  let fileSummaries := collectFileSummaries summarize cancelled 0 filteredFiles
  let projectStructure := buildProjectStructure filteredFiles
  let moduleSummary :=
    summarizeDirectoryRecursively provider bo bp fileSummaries "" projectStructure
  ⟨fileSummaries, moduleSummary, saveToFileSetting saveSetting⟩

/-! ## Lemmas about the retry wrapper -/

/-- A successful attempt returns immediately. -/
theorem fetchWithRetryGo_ok (outcome : Attempt) (mr a : Nat) (r : Option String)
    (h : outcome a = .ok r) : fetchWithRetryGo outcome mr a = ⟨.ok r, [], 1⟩ := by
  rw [fetchWithRetryGo, h]

/-- A failure with the retry budget exhausted rethrows. -/
theorem fetchWithRetryGo_last (outcome : Attempt) (mr a : Nat) (e : String)
    (h : outcome a = .error e) (hgt : a + 1 > mr) :
    fetchWithRetryGo outcome mr a = ⟨.error e, [], 1⟩ := by
  rw [fetchWithRetryGo, h]
  simp [hgt]

/-- A failure with budget remaining backs off `2^(attempt+1) * 1000` ms and retries. -/
theorem fetchWithRetryGo_retry (outcome : Attempt) (mr a : Nat) (e : String)
    (h : outcome a = .error e) (hle : ¬(a + 1 > mr)) :
    fetchWithRetryGo outcome mr a =
      ⟨(fetchWithRetryGo outcome mr (a + 1)).result,
        2 ^ (a + 1) * 1000 :: (fetchWithRetryGo outcome mr (a + 1)).delays,
        (fetchWithRetryGo outcome mr (a + 1)).attempts + 1⟩ := by
  rw [fetchWithRetryGo, h]
  simp [hle]

/-- With the default `maxRetries = 2` and every attempt failing, the call makes
exactly 3 attempts, two backoff delays, and rethrows the last error. -/
theorem fetchWithRetry_all_fail (outcome : Attempt) (e0 e1 e2 : String)
    (h0 : outcome 0 = .error e0) (h1 : outcome 1 = .error e1)
    (h2 : outcome 2 = .error e2) :
    fetchWithRetry outcome = ⟨.error e2, [2000, 4000], 3⟩ := by
  unfold fetchWithRetry
  rw [fetchWithRetryGo_retry outcome 2 0 e0 h0 (by omega),
    fetchWithRetryGo_retry outcome 2 1 e1 h1 (by omega),
    fetchWithRetryGo_last outcome 2 2 e2 h2 (by omega)]
  rfl

/-! ## Claim theorems -/

/-- C5: `fetchWithRetry` with the default `maxRetries = 2` makes at most 3
attempts; fail/fail/succeed yields the successful reply after exactly the
two backoff delays `2^1*1000 = 2000` ms and `2^2*1000 = 4000` ms; three
failures in a row surface the (last) failure, not a partial result. -/
theorem fetchWithRetry_retry_policy (outcome : Attempt) (e0 e1 e2 : String)
    (r : Option String) :
    (fetchWithRetry outcome).attempts ≤ 3 ∧
    (outcome 0 = .error e0 → outcome 1 = .error e1 → outcome 2 = .ok r →
      fetchWithRetry outcome = ⟨.ok r, [2000, 4000], 3⟩) ∧
    (outcome 0 = .error e0 → outcome 1 = .error e1 → outcome 2 = .error e2 →
      fetchWithRetry outcome = ⟨.error e2, [2000, 4000], 3⟩) := by
  refine ⟨?_, ?_, ?_⟩
  · unfold fetchWithRetry
    cases h0 : outcome 0 with
    | ok r0 => simp [fetchWithRetryGo_ok outcome 2 0 r0 h0]
    | error e0' =>
      rw [fetchWithRetryGo_retry outcome 2 0 e0' h0 (by omega)]
      cases h1 : outcome 1 with
      | ok r1 => simp [fetchWithRetryGo_ok outcome 2 1 r1 h1]
      | error e1' =>
        rw [fetchWithRetryGo_retry outcome 2 1 e1' h1 (by omega)]
        cases h2 : outcome 2 with
        | ok r2 => simp [fetchWithRetryGo_ok outcome 2 2 r2 h2]
        | error e2' => simp [fetchWithRetryGo_last outcome 2 2 e2' h2 (by omega)]
  · intro h0 h1 h2
    unfold fetchWithRetry
    rw [fetchWithRetryGo_retry outcome 2 0 e0 h0 (by omega),
      fetchWithRetryGo_retry outcome 2 1 e1 h1 (by omega),
      fetchWithRetryGo_ok outcome 2 2 r h2]
    rfl
  · exact fetchWithRetry_all_fail outcome e0 e1 e2

/-- C5 witness: a backend failing twice then succeeding, and one failing
three times, at concrete outcome functions. -/
theorem fetchWithRetry_retry_policy_witness :
    fetchWithRetry (fun n => if n < 2 then .error "boom" else .ok (some "reply")) =
      ⟨.ok (some "reply"), [2000, 4000], 3⟩ ∧
    fetchWithRetry (fun _ => .error "down") = ⟨.error "down", [2000, 4000], 3⟩ :=
  ⟨(fetchWithRetry_retry_policy (fun n => if n < 2 then .error "boom" else .ok (some "reply"))
      "boom" "boom" "boom" (some "reply")).2.1 rfl rfl rfl,
   (fetchWithRetry_retry_policy (fun _ => .error "down") "down" "down" "down" none).2.2
      rfl rfl rfl⟩

/-- The stripper leaves any string without a complete span untouched
(any fuel). -/
theorem removeThinkGo_of_no_span (fuel : Nat) (s : List Char)
    (h : ∀ i, findSub? openTag s = some i → findSub? closeTag (s.drop (i + 7)) = none) :
    removeThinkGo fuel s = s := by
  cases fuel with
  | zero => rfl
  | succ n =>
    unfold removeThinkGo
    cases h1 : findSub? openTag s with
    | none => simp
    | some i => simp [h i h1]

/-- C3 (amended): a single application removes every leftmost-shortest
`<think>...</think>` span in one left-to-right pass (shown on a string with
two spans), and a string with no remaining span is left unchanged; the
original idempotence claim fails (see the counterexample). -/
theorem removeThinkTags_single_pass :
    (∀ s, hasThinkSpan s = false → removeThinkTags s = s) ∧
    removeThinkTags "pre<think>a</think>mid<think>b</think>post" = "premidpost" := by
  constructor
  · intro s h
    obtain ⟨d⟩ := s
    unfold hasThinkSpan at h
    refine congrArg String.mk (removeThinkGo_of_no_span _ _ ?_)
    intro i h1
    simp only [h1] at h
    exact Option.not_isSome_iff_eq_none.mp (by simp [h])
  · decide

/-- C3 witness: an already-stripped string (no remaining span) is untouched. -/
theorem removeThinkTags_single_pass_witness :
    hasThinkSpan "ab</think>cd" = false ∧ removeThinkTags "ab</think>cd" = "ab</think>cd" :=
  ⟨by decide, removeThinkTags_single_pass.1 "ab</think>cd" (by decide)⟩

/-- C3 counterexample: stripping is NOT idempotent.  On
`"<thi<think>x</think>nk>abc</think>"` the first pass deletes
`"<think>x</think>"`, and the remaining fragments join into the new span
`"<think>abc</think>"`, which a second pass deletes. -/
theorem removeThinkTags_not_idempotent :
    removeThinkTags (removeThinkTags "<thi<think>x</think>nk>abc</think>") ≠
      removeThinkTags "<thi<think>x</think>nk>abc</think>" := by
  decide

/-- C10: the save-to-file flag `config.get("saveToFile") || true` is `true`
for every configured value — including an explicit `false` — so every
non-aborted run takes the save branch. -/
theorem saveToFile_cannot_be_disabled (provider : Provider) (bo bp : String → String)
    (summarize : String → String) (cancelled : Nat → Bool) (files : List String) :
    (∀ configured, saveToFileSetting configured = true) ∧
    saveToFileSetting (some false) = true ∧
    (∀ configured,
      (documentProject provider bo bp summarize configured cancelled files).saveAttempted =
        true) := by
  have h : ∀ configured, saveToFileSetting configured = true := by
    intro configured
    cases configured with
    | none => rfl
    | some b => cases b <;> rfl
  exact ⟨h, h (some false), fun configured => h configured⟩

/-- C6: a path matching the merged ignore set is excluded whatever its size;
a non-matching path within a positive size limit is included; limit 0 makes
the stat irrelevant (and includes every non-matching path); a stat failure
under a positive limit excludes the file (the run continues — `includeFile`
is total). -/
theorem includeFile_filter_policy (ignores : String → Bool) (maxFileSize : Nat)
    (stat : Option Nat) (relative : String) :
    (ignores relative = true → includeFile ignores maxFileSize stat relative = false) ∧
    (ignores relative = false → 0 < maxFileSize → ∀ size, stat = some size →
      size ≤ maxFileSize → includeFile ignores maxFileSize stat relative = true) ∧
    (∀ stat', includeFile ignores 0 stat relative = includeFile ignores 0 stat' relative) ∧
    (ignores relative = false → includeFile ignores 0 stat relative = true) ∧
    (ignores relative = false → 0 < maxFileSize →
      includeFile ignores maxFileSize none relative = false) := by
  refine ⟨?_, ?_, ?_, ?_, ?_⟩
  · intro h; simp [includeFile, h]
  · intro h hpos size hs hle
    subst hs
    simp [includeFile, h, hpos]
    omega
  · intro stat'; simp [includeFile]
  · intro h; simp [includeFile, h]
  · intro h hpos; simp [includeFile, h, hpos]

/-- C6 witness: the four filter outcomes at concrete inputs. -/
theorem includeFile_filter_policy_witness :
    includeFile (fun r => r == "skip.md") 10 (some 3) "skip.md" = false ∧
    includeFile (fun r => r == "skip.md") 10 (some 3) "keep.md" = true ∧
    includeFile (fun r => r == "skip.md") 0 none "keep.md" = true ∧
    includeFile (fun r => r == "skip.md") 10 none "keep.md" = false :=
  ⟨(includeFile_filter_policy _ 10 (some 3) "skip.md").1 (by decide),
    (includeFile_filter_policy _ 10 (some 3) "keep.md").2.1 (by decide) (by decide) 3 rfl
      (by decide),
    (includeFile_filter_policy _ 0 none "keep.md").2.2.2.1 (by decide),
    (includeFile_filter_policy _ 10 none "keep.md").2.2.2.2 (by decide) (by decide)⟩

/-- C8: with a missing or empty OpenAI key both hosted-API variants return
the configuration-error text with zero network attempts, and that text is
distinct from the corresponding network-failure text. -/
theorem openai_missing_key_fails_fast (openaiKey : Option String) (outcome : Attempt)
    (h : openaiKey = none ∨ openaiKey = some "") :
    summarizeFileWithOpenAI openaiKey outcome =
      ("Summary not available (no OpenAI key).", 0) ∧
    summarizeModuleWithOpenAI openaiKey outcome =
      ("Module summary not available (no OpenAI key).", 0) ∧
    "Summary not available (no OpenAI key)." ≠ "Summary not available (OpenAI error)." ∧
    "Module summary not available (no OpenAI key)." ≠
      "Module summary not available (OpenAI error)." := by
  have hf : strFalsy openaiKey = true := by
    rcases h with h | h <;> subst h <;> rfl
  refine ⟨?_, ?_, by decide, by decide⟩
  · simp [summarizeFileWithOpenAI, hf]
  · simp [summarizeModuleWithOpenAI, hf]

/-- C8 witness: the fail-fast result at an absent key, with a network whose
every attempt would fail. -/
theorem openai_missing_key_fails_fast_witness :
    summarizeFileWithOpenAI none (fun _ => .error "down") =
      ("Summary not available (no OpenAI key).", 0) ∧
    summarizeModuleWithOpenAI (some "") (fun _ => .error "down") =
      ("Module summary not available (no OpenAI key).", 0) :=
  ⟨(openai_missing_key_fails_fast none (fun _ => .error "down") (Or.inl rfl)).1,
   (openai_missing_key_fails_fast (some "") (fun _ => .error "down") (Or.inr rfl)).2.1⟩

/-- C9: the file summarizer never surfaces a raw backend error — when every
network attempt fails it returns the fixed per-provider placeholder (for
OpenAI, given a nonempty key), and with an unrecognized provider it returns
the first five lines of the content without touching the network at all. -/
theorem summarizeFile_degrades_gracefully (openaiKey : Option String)
    (customFilePrompt : Option String) (network : String → Attempt)
    (content : String)
    (hfail : ∀ p n, ∃ e, network p n = Except.error e)
    (hkey : strFalsy openaiKey = false) :
    summarizeFile .ollama openaiKey customFilePrompt network content =
      "Summary not available (Ollama error)." ∧
    summarizeFile .openai openaiKey customFilePrompt network content =
      "Summary not available (OpenAI error)." ∧
    (∀ (network' : String → Attempt) (content' : String),
      summarizeFile .other openaiKey customFilePrompt network' content' =
        joinSep "\n" ((content'.splitOn "\n").take 5)) := by
  obtain ⟨e0, h0⟩ :=
    hfail (buildFilePrompt (effectiveFileTemplate customFilePrompt) content) 0
  obtain ⟨e1, h1⟩ :=
    hfail (buildFilePrompt (effectiveFileTemplate customFilePrompt) content) 1
  obtain ⟨e2, h2⟩ :=
    hfail (buildFilePrompt (effectiveFileTemplate customFilePrompt) content) 2
  refine ⟨?_, ?_, fun network' content' => rfl⟩
  · simp [summarizeFile, summarizeFileWithOllama,
      fetchWithRetry_all_fail _ e0 e1 e2 h0 h1 h2]
  · simp [summarizeFile, summarizeFileWithOpenAI, hkey,
      fetchWithRetry_all_fail _ e0 e1 e2 h0 h1 h2]

/-- C9 witness: placeholders at a concrete always-failing network and the
first-five-lines fallback at concrete content. -/
theorem summarizeFile_degrades_gracefully_witness :
    summarizeFile .ollama (some "k") none (fun _ _ => .error "down") "let x = 1" =
      "Summary not available (Ollama error)." ∧
    summarizeFile .openai (some "k") none (fun _ _ => .error "down") "let x = 1" =
      "Summary not available (OpenAI error)." ∧
    summarizeFile .other (some "k") none (fun _ _ => .error "down") "a\nb\nc\nd\ne\nf" =
      joinSep "\n" (("a\nb\nc\nd\ne\nf".splitOn "\n").take 5) :=
  ⟨(summarizeFile_degrades_gracefully (some "k") none (fun _ _ => .error "down")
      "let x = 1" (fun _ _ => ⟨"down", rfl⟩) (by decide)).1,
   (summarizeFile_degrades_gracefully (some "k") none (fun _ _ => .error "down")
      "let x = 1" (fun _ _ => ⟨"down", rfl⟩) (by decide)).2.1,
   (summarizeFile_degrades_gracefully (some "k") none (fun _ _ => .error "down")
      "a" (fun _ _ => ⟨"down", rfl⟩) (by decide)).2.2 (fun _ _ => .error "down")
      "a\nb\nc\nd\ne\nf"⟩

/-- C4 counterexample: a leaf whose path IS present in the summary mapping,
but with the empty summary (reachable, e.g. a backend reply that is one
whole think span and strips to `""`), contributes NO fragment —
`if (fileSummary)` at extension.ts:569 is a JS truthiness test — refuting
the claim that presence in the mapping alone yields the `"File: ..."`
fragment. -/
theorem aggregator_empty_summary_counterexample :
    lookupSummary "a.txt" [("a.txt", "")] = some "" ∧
    collectChildSummaries .ollama id id [("a.txt", "")] ""
      (.cons "a.txt" (.node .nil) .nil) = [] :=
  ⟨rfl, rfl⟩

/-- C4 (amended): each visited leaf whose mapped summary is present and
non-empty contributes exactly its `"File: <path>\nSummary: <summary>"`
fragment, a leaf whose path is absent — or maps to the empty string, which
the JS truthiness test skips — contributes nothing, a child module is
wrapped as `"Module: <path>\nSummary: <text>"` for its parent; on the
spec's example tree `root -> {a.txt, dir -> {b.txt}}` the `dir` prompt is
the module prompt plus `"File: dir/b.txt\nSummary: B"`, the root prompt
contains both the `a.txt` fragment and the backend's `dir` aggregation
output, and the terminal root call returns the bare backend output with no
`"Module:"` wrapper. -/
theorem aggregator_fragment_structure (b : String → String) :
    (∀ (provider : Provider) (bo bp : String → String) (m : List (String × String))
        (cur key s : String) (rest : PChildren),
      lookupSummary (if cur = "" then key else cur ++ "/" ++ key) m = some s →
      s ≠ "" →
      collectChildSummaries provider bo bp m cur (.cons key (.node .nil) rest) =
        ("File: " ++ (if cur = "" then key else cur ++ "/" ++ key) ++ "\nSummary: " ++ s) ::
          collectChildSummaries provider bo bp m cur rest) ∧
    (∀ (provider : Provider) (bo bp : String → String) (m : List (String × String))
        (cur key : String) (rest : PChildren),
      lookupSummary (if cur = "" then key else cur ++ "/" ++ key) m = some "" →
      collectChildSummaries provider bo bp m cur (.cons key (.node .nil) rest) =
        collectChildSummaries provider bo bp m cur rest) ∧
    (∀ (provider : Provider) (bo bp : String → String) (m : List (String × String))
        (cur key : String) (rest : PChildren),
      lookupSummary (if cur = "" then key else cur ++ "/" ++ key) m = none →
      collectChildSummaries provider bo bp m cur (.cons key (.node .nil) rest) =
        collectChildSummaries provider bo bp m cur rest) ∧
    (∀ (provider : Provider) (bo bp : String → String) (m : List (String × String))
        (cur key : String) (c : PTree) (rest : PChildren),
      c.children.isNil = false →
      collectChildSummaries provider bo bp m cur (.cons key c rest) =
        ("Module: " ++ (if cur = "" then key else cur ++ "/" ++ key) ++ "\nSummary: " ++
          summarizeDirectoryRecursively provider bo bp m
            (if cur = "" then key else cur ++ "/" ++ key) c) ::
          collectChildSummaries provider bo bp m cur rest) ∧
    modulePromptFor .ollama b b exampleSummaries "dir" exampleDirChildren =
      DEFAULT_MODULE_PROMPT ++ "\n\n" ++ "File: dir/b.txt\nSummary: B" ∧
    strContains "File: a.txt\nSummary: A"
      (modulePromptFor .ollama b b exampleSummaries "" exampleRootChildren) ∧
    strContains (b (modulePromptFor .ollama b b exampleSummaries "dir" exampleDirChildren))
      (modulePromptFor .ollama b b exampleSummaries "" exampleRootChildren) ∧
    summarizeDirectoryRecursively .ollama b b exampleSummaries ""
        (.node exampleRootChildren) =
      b (modulePromptFor .ollama b b exampleSummaries "" exampleRootChildren) := by
  refine ⟨?_, ?_, ?_, ?_, ?_, ?_, ?_, ?_⟩
  · intro provider bo bp m cur key s rest h hs
    simp [collectChildSummaries, PTree.children, PChildren.isNil, h, hs]
  · intro provider bo bp m cur key rest h
    simp [collectChildSummaries, PTree.children, PChildren.isNil, h]
  · intro provider bo bp m cur key rest h
    simp [collectChildSummaries, PTree.children, PChildren.isNil, h]
  · intro provider bo bp m cur key c rest h
    simp [collectChildSummaries, h]
  · rfl
  · have h1 : modulePromptFor .ollama b b exampleSummaries "" exampleRootChildren =
        (DEFAULT_MODULE_PROMPT ++ "\n\n") ++
          (("File: a.txt\nSummary: A" ++ "\n\n") ++
            ("Module: dir\nSummary: " ++
              b (modulePromptFor .ollama b b exampleSummaries "dir" exampleDirChildren))) :=
      rfl
    refine ⟨DEFAULT_MODULE_PROMPT ++ "\n\n",
      "\n\n" ++ ("Module: dir\nSummary: " ++
        b (modulePromptFor .ollama b b exampleSummaries "dir" exampleDirChildren)), ?_⟩
    rw [h1]
    simp only [String.append_assoc]
  · have h1 : modulePromptFor .ollama b b exampleSummaries "" exampleRootChildren =
        (DEFAULT_MODULE_PROMPT ++ "\n\n") ++
          (("File: a.txt\nSummary: A" ++ "\n\n") ++
            ("Module: dir\nSummary: " ++
              b (modulePromptFor .ollama b b exampleSummaries "dir" exampleDirChildren))) :=
      rfl
    refine ⟨(DEFAULT_MODULE_PROMPT ++ "\n\n") ++
      (("File: a.txt\nSummary: A" ++ "\n\n") ++ "Module: dir\nSummary: "), "", ?_⟩
    rw [h1]
    simp only [String.append_assoc, String.append_empty]
  · rfl

/-- C4 witness: the non-empty-leaf, empty-leaf, absent-leaf and
module-wrapping clauses at concrete children lists, under the identity
backend. -/
theorem aggregator_fragment_structure_witness :
    collectChildSummaries .ollama id id [("a.txt", "A")] ""
        (.cons "a.txt" (.node .nil) .nil) = ["File: a.txt\nSummary: A"] ∧
    collectChildSummaries .ollama id id [("b.txt", "")] ""
        (.cons "b.txt" (.node .nil) .nil) = [] ∧
    collectChildSummaries .ollama id id [] "" (.cons "a.txt" (.node .nil) .nil) = [] ∧
    collectChildSummaries .ollama id id exampleSummaries ""
        (.cons "dir" (.node exampleDirChildren) .nil) =
      ["Module: dir\nSummary: " ++
        summarizeDirectoryRecursively .ollama id id exampleSummaries "dir"
          (.node exampleDirChildren)] ∧
    summarizeDirectoryRecursively .ollama id id exampleSummaries ""
        (.node exampleRootChildren) =
      id (modulePromptFor .ollama id id exampleSummaries "" exampleRootChildren) := by
  refine ⟨?_, ?_, ?_, ?_, (aggregator_fragment_structure id).2.2.2.2.2.2.2⟩
  · have h := (aggregator_fragment_structure id).1 .ollama id id [("a.txt", "A")]
      "" "a.txt" "A" .nil (by decide) (by decide)
    simpa [collectChildSummaries] using h
  · have h := (aggregator_fragment_structure id).2.1 .ollama id id [("b.txt", "")]
      "" "b.txt" .nil (by decide)
    simpa [collectChildSummaries] using h
  · have h := (aggregator_fragment_structure id).2.2.1 .ollama id id []
      "" "a.txt" .nil (by decide)
    simpa [collectChildSummaries] using h
  · have h := (aggregator_fragment_structure id).2.2.2.1 .ollama id id exampleSummaries
      "" "dir" (.node exampleDirChildren) .nil (by decide)
    simpa [collectChildSummaries] using h

/-- When every attempt fails, the Ollama module call returns its fixed
placeholder (the thrown error is caught inside the function). -/
theorem summarizeModuleWithOllama_all_fail (outcome : Attempt)
    (hfail : ∀ n, ∃ e, outcome n = Except.error e) :
    summarizeModuleWithOllama outcome = "Module summary not available (Ollama error)." := by
  obtain ⟨e0, h0⟩ := hfail 0
  obtain ⟨e1, h1⟩ := hfail 1
  obtain ⟨e2, h2⟩ := hfail 2
  simp [summarizeModuleWithOllama, fetchWithRetry_all_fail _ e0 e1 e2 h0 h1 h2]

/-- C1 counterexample: on the tree `root -> {dir -> {b.txt}}` with a network
that always fails, the hierarchical aggregation does NOT abort: the failed
`dir` aggregation is downgraded to the fixed placeholder, that placeholder
is wrapped as `dir`'s summary and fed to the root, and the traversal
returns normally (with the root's own placeholder). -/
theorem module_failure_aborts_counterexample :
    summarizeDirectoryRecursively .ollama
        (fun _ => summarizeModuleWithOllama (fun _ => Except.error "connection refused"))
        (fun _ => summarizeModuleWithOllama (fun _ => Except.error "connection refused"))
        [("dir/b.txt", "B")] "" (.node (.cons "dir" (.node exampleDirChildren) .nil)) =
      "Module summary not available (Ollama error)." ∧
    collectChildSummaries .ollama
        (fun _ => summarizeModuleWithOllama (fun _ => Except.error "connection refused"))
        (fun _ => summarizeModuleWithOllama (fun _ => Except.error "connection refused"))
        [("dir/b.txt", "B")] "" (.cons "dir" (.node exampleDirChildren) .nil) =
      ["Module: dir\nSummary: Module summary not available (Ollama error)."] := by
  have hm : summarizeModuleWithOllama (fun _ => Except.error "connection refused") =
      "Module summary not available (Ollama error)." :=
    summarizeModuleWithOllama_all_fail _ (fun _ => ⟨"connection refused", rfl⟩)
  constructor
  · simp [summarizeDirectoryRecursively, hm]
  · simp [collectChildSummaries, summarizeDirectoryRecursively, hm, PTree.children,
      PChildren.isNil, exampleDirChildren, lookupSummary]

/-- C1 (amended): a module backend failure after retries is caught inside the
module-summarization call and replaced by the fixed placeholder; the
placeholder is wrapped as the module's summary for its parent, and the
aggregation continues to a normal result instead of aborting. -/
theorem module_failure_downgraded (network : String → Attempt)
    (hfail : ∀ p n, ∃ e, network p n = Except.error e) :
    (∀ prompt, summarizeModuleWithOllama (network prompt) =
      "Module summary not available (Ollama error).") ∧
    collectChildSummaries .ollama
        (fun prompt => summarizeModuleWithOllama (network prompt))
        (fun prompt => summarizeModuleWithOllama (network prompt))
        [("dir/b.txt", "B")] "" (.cons "dir" (.node exampleDirChildren) .nil) =
      ["Module: dir\nSummary: Module summary not available (Ollama error)."] ∧
    summarizeDirectoryRecursively .ollama
        (fun prompt => summarizeModuleWithOllama (network prompt))
        (fun prompt => summarizeModuleWithOllama (network prompt))
        [("dir/b.txt", "B")] "" (.node (.cons "dir" (.node exampleDirChildren) .nil)) =
      "Module summary not available (Ollama error)." := by
  have hm : ∀ prompt, summarizeModuleWithOllama (network prompt) =
      "Module summary not available (Ollama error)." :=
    fun prompt => summarizeModuleWithOllama_all_fail _ (hfail prompt)
  refine ⟨hm, ?_, ?_⟩
  · simp [collectChildSummaries, summarizeDirectoryRecursively, hm, PTree.children,
      PChildren.isNil, exampleDirChildren, lookupSummary]
  · simp [summarizeDirectoryRecursively, hm]

/-- C1 witness: the downgrade at a concrete always-timing-out network. -/
theorem module_failure_downgraded_witness :
    summarizeModuleWithOllama ((fun _ _ => Except.error "timeout") "any prompt") =
      "Module summary not available (Ollama error)." ∧
    summarizeDirectoryRecursively .ollama
        (fun prompt => summarizeModuleWithOllama ((fun _ _ => Except.error "timeout") prompt))
        (fun prompt => summarizeModuleWithOllama ((fun _ _ => Except.error "timeout") prompt))
        [("dir/b.txt", "B")] "" (.node (.cons "dir" (.node exampleDirChildren) .nil)) =
      "Module summary not available (Ollama error)." :=
  ⟨(module_failure_downgraded (fun _ _ => Except.error "timeout")
      (fun _ _ => ⟨"timeout", rfl⟩)).1 "any prompt",
   (module_failure_downgraded (fun _ _ => Except.error "timeout")
      (fun _ _ => ⟨"timeout", rfl⟩)).2.2⟩

/-- The file loop with a token that fires from iteration `c` onward collects
exactly the first `c` files' summaries. -/
theorem collectFileSummaries_cancel_at (summarize : String → String) (c : Nat) :
    ∀ (files : List String) (i : Nat),
      collectFileSummaries summarize (fun j => decide (c ≤ j)) i files =
        (files.take (c - i)).map (fun f => (f, summarize f)) := by
  intro files
  induction files with
  | nil => intro i; simp [collectFileSummaries]
  | cons f rest ih =>
    intro i
    by_cases h : c ≤ i
    · have : c - i = 0 := by omega
      simp [collectFileSummaries, h, this]
    · have h1 : c - i = (c - (i + 1)) + 1 := by omega
      simp [collectFileSummaries, h, h1, ih (i + 1)]

/-- C2 counterexample: cancelling after 2 of 5 files does NOT prevent the
module-aggregation backend call — `documentProject` aggregates the two
collected summaries over the full five-file tree and returns an ordinary
outcome whose project summary is the backend's output (here the `AGG[...]`
echo), with no cancellation indication. -/
theorem cancellation_skips_aggregation_counterexample :
    documentProject .ollama (fun p => "AGG[" ++ p ++ "]") (fun p => "AGG[" ++ p ++ "]")
        (fun f => "S-" ++ f) (some true) (fun i => decide (2 ≤ i))
        ["f1", "f2", "f3", "f4", "f5"] =
      ⟨[("f1", "S-f1"), ("f2", "S-f2")],
        "AGG[" ++ (DEFAULT_MODULE_PROMPT ++ "\n\n" ++
          ("File: f1\nSummary: S-f1" ++ "\n\n" ++ "File: f2\nSummary: S-f2")) ++ "]",
        true⟩ := by
  rfl

/-- C2 (amended): raising cancellation from file index `c` onward stops the
file-summarization loop after the first `c` files, but the hierarchical
aggregation still runs, over the partial summary map and the tree of ALL
filtered files, and the run produces an ordinary outcome (summaries, an
aggregated project summary, the save flag) with no cancellation
indication. -/
theorem cancellation_discards_nothing (provider : Provider) (bo bp : String → String)
    (summarize : String → String) (saveSetting : Option Bool) (c : Nat)
    (files : List String) :
    documentProject provider bo bp summarize saveSetting (fun i => decide (c ≤ i)) files =
      ⟨(files.take c).map (fun f => (f, summarize f)),
        summarizeDirectoryRecursively provider bo bp
          ((files.take c).map (fun f => (f, summarize f))) ""
          (buildProjectStructure files),
        saveToFileSetting saveSetting⟩ := by
  have h := collectFileSummaries_cancel_at summarize c files 0
  simp only [Nat.sub_zero] at h
  simp [documentProject, h]

/-- Reading key `k` after writing key `a` reads the written value iff
`k = a`, else the original entry. -/
theorem lookupChild_setChild (k a : String) (v : PTree) (cs : PChildren) :
    lookupChild k (setChild a v cs) = if k = a then some v else lookupChild k cs := by
  induction cs using PChildren.spineInduction with
  | h0 =>
    simp only [setChild, lookupChild]
    by_cases h : k = a <;> simp_all
    exact fun hh => h hh.symm
  | h1 k' sub rest ih =>
    simp only [setChild]
    by_cases h1 : k' = a <;> by_cases h2 : k' = k <;> by_cases h3 : k = a <;>
      simp_all [lookupChild]

/-- The empty segment path always denotes the root. -/
theorem hasNode_nil_path (t : PTree) : hasNode t [] = true := by
  obtain ⟨cs⟩ := t
  rfl

/-- Unfolding node lookup along one segment. -/
theorem hasNode_cons_path (cs : PChildren) (k : String) (ks : List String) :
    hasNode (.node cs) (k :: ks) =
      match lookupChild k cs with
      | some sub => hasNode sub ks
      | none => false := by
  simp only [hasNode, subtree?]
  cases lookupChild k cs <;> rfl

/-- Inserting a path adds exactly the nodes at its prefixes. -/
theorem hasNode_insertPath (ps : List String) (t : PTree) (q : List String) :
    hasNode (insertPath ps t) q = (hasNode t q || decide (q <+: ps)) := by
  induction ps generalizing t q with
  | nil =>
    cases q with
    | nil => simp [insertPath, hasNode_nil_path]
    | cons k ks => simp [insertPath, List.prefix_nil]
  | cons seg rest ih =>
    obtain ⟨cs⟩ := t
    cases q with
    | nil => simp [hasNode_nil_path, List.nil_prefix]
    | cons k ks =>
      rw [insertPath, hasNode_cons_path, lookupChild_setChild, hasNode_cons_path]
      by_cases hk : k = seg
      · rw [if_pos hk]
        show hasNode (insertPath rest ((lookupChild seg cs).getD (.node .nil))) ks = _
        rw [ih]
        subst hk
        cases hl : lookupChild k cs with
        | some sub =>
          simp only [hl, Option.getD_some]
          simp [List.cons_prefix_cons]
        | none =>
          simp only [hl, Option.getD_none]
          cases ks with
          | nil => simp [hasNode_nil_path, List.cons_prefix_cons, List.nil_prefix]
          | cons k2 ks2 => simp [hasNode_cons_path, lookupChild, List.cons_prefix_cons]
      · rw [if_neg hk]
        have hnp : ¬((k :: ks) <+: (seg :: rest)) := by
          rw [List.cons_prefix_cons]
          rintro ⟨h1, -⟩
          exact hk h1
        simp [hnp]

/-- Folding the builder over a file list adds the prefixes of every file. -/
theorem hasNode_build_aux (l : List String) (t : PTree) (q : List String) :
    hasNode (l.foldl (fun t f => insertPath (splitPath f) t) t) q =
      (hasNode t q || l.any (fun f => decide (q <+: splitPath f))) := by
  induction l generalizing t with
  | nil => simp
  | cons f fs ih =>
    simp only [List.foldl_cons, List.any_cons]
    rw [ih, hasNode_insertPath]
    cases hasNode t q <;> simp [Bool.or_assoc]

/-- The empty tree has only its root. -/
theorem hasNode_empty (q : List String) :
    hasNode (.node .nil) q = decide (q = []) := by
  cases q with
  | nil => rfl
  | cons k ks => simp [hasNode_cons_path, lookupChild]

/-- Node-set characterization of the built tree: a node exists exactly at
the root and at every prefix of some input path. -/
theorem hasNode_build (l : List String) (q : List String) :
    hasNode (buildProjectStructure l) q =
      (decide (q = []) || l.any (fun f => decide (q <+: splitPath f))) := by
  rw [buildProjectStructure, hasNode_build_aux, hasNode_empty]

/-- Following a concatenated path follows the two parts in turn. -/
theorem subtree?_append (t : PTree) (q r : List String) :
    subtree? t (q ++ r) = (subtree? t q).bind (fun s => subtree? s r) := by
  induction q generalizing t with
  | nil => simp [subtree?]
  | cons k ks ih =>
    obtain ⟨cs⟩ := t
    simp only [List.cons_append, subtree?]
    cases lookupChild k cs with
    | some sub => simp [ih]
    | none => simp

/-- Every non-root leaf of the built tree is one of the input paths. -/
theorem isLeafAt_build_mem (l : List String) (q : List String) (hq : q ≠ [])
    (hleaf : isLeafAt (buildProjectStructure l) q = true) :
    ∃ f ∈ l, splitPath f = q := by
  unfold isLeafAt at hleaf
  cases hs : subtree? (buildProjectStructure l) q with
  | none => rw [hs] at hleaf; simp at hleaf
  | some sub =>
    rw [hs] at hleaf
    obtain ⟨cs⟩ := sub
    have hcs : cs = .nil := by
      cases cs with
      | nil => rfl
      | cons a b c => simp [PTree.children, PChildren.isNil] at hleaf
    subst hcs
    have hq1 : hasNode (buildProjectStructure l) q = true := by
      simp [hasNode, hs]
    rw [hasNode_build] at hq1
    have hq2 : l.any (fun f => decide (q <+: splitPath f)) = true := by
      cases hq3 : decide (q = []) with
      | false => simpa [hq3] using hq1
      | true => exact absurd (of_decide_eq_true hq3) hq
    obtain ⟨f, hf, hpre⟩ : ∃ f ∈ l, q <+: splitPath f := by
      simpa [List.any_eq_true] using hq2
    by_cases heq : splitPath f = q
    · exact ⟨f, hf, heq⟩
    · exfalso
      obtain ⟨r, hr⟩ := hpre
      cases r with
      | nil => exact heq (by simpa using hr.symm)
      | cons x rs =>
        have hnode : hasNode (buildProjectStructure l) (q ++ [x]) = true := by
          rw [hasNode_build]
          simp only [Bool.or_eq_true, decide_eq_true_eq, List.any_eq_true]
          right
          exact ⟨f, hf, ⟨rs, by rw [← hr]; simp⟩⟩
        have hcontra : hasNode (buildProjectStructure l) (q ++ [x]) = false := by
          simp [hasNode, subtree?_append, hs, subtree?, lookupChild]
        rw [hnode] at hcontra
        cases hcontra

/-- C7: the tree builder is permutation-invariant — two input lists that are
permutations of each other produce trees with the same node set (hence the
same parent/child edges and nesting), and every non-root root-to-leaf path
of the built tree is exactly one of the input paths. -/
theorem buildProjectStructure_permutation_invariant (l lp : List String)
    (hperm : l.Perm lp) :
    (∀ q, hasNode (buildProjectStructure l) q = hasNode (buildProjectStructure lp) q) ∧
    (∀ q, q ≠ [] → isLeafAt (buildProjectStructure l) q = true →
      ∃ f ∈ l, splitPath f = q) := by
  constructor
  · intro q
    rw [hasNode_build, hasNode_build]
    have h : l.any (fun f => decide (q <+: splitPath f)) =
        lp.any (fun f => decide (q <+: splitPath f)) := by
      apply Bool.eq_iff_iff.mpr
      simp only [List.any_eq_true]
      constructor
      · rintro ⟨f, hf, hp⟩; exact ⟨f, hperm.mem_iff.mp hf, hp⟩
      · rintro ⟨f, hf, hp⟩; exact ⟨f, hperm.mem_iff.mpr hf, hp⟩
    rw [h]
  · exact fun q => isLeafAt_build_mem l q

/-- C7 witness: the invariance at a concrete permuted pair, and the
leaf-path correspondence at a concrete leaf. -/
theorem buildProjectStructure_permutation_invariant_witness :
    hasNode (buildProjectStructure ["a/b", "c"]) ["a"] =
      hasNode (buildProjectStructure ["c", "a/b"]) ["a"] ∧
    (∃ f ∈ (["a/b", "c"] : List String), splitPath f = ["a", "b"]) :=
  ⟨(buildProjectStructure_permutation_invariant ["a/b", "c"] ["c", "a/b"] (by decide)).1 ["a"],
   (buildProjectStructure_permutation_invariant ["a/b", "c"] ["c", "a/b"] (by decide)).2
     ["a", "b"] (by decide) (by decide)⟩

end DocWeaver
